import Mathlib

/-!
Verification development for the ai-todo backend (FastAPI + SQLAlchemy).

This file gives a shallow embedding, in Lean 4, of the parts of the backend
that the testable properties of the specification talk about:

* the metric contribution ledger maintained by
  `app/services/task_service.py` (`update_task`) and read back by
  `app/routers/goals.py` (`prepare_metric_for_response`);
* the task completion bookkeeping (`completion_time` / `completion_order`)
  of `update_task`;
* the deterministic fallback recommendation scorers of
  `app/services/ai_recommender_service.py`
  (`create_fallback_recommendation`, `create_fallback_goal_recommendation`)
  together with the provider dispatch functions
  (`get_task_recommendation`, `get_goal_recommendation`,
  `get_top_goal_recommendations`);
* the HTTP handlers `update_goal` (`app/routers/goals.py`),
  `get_metrics` (`app/routers/metrics.py`) and `recommend_task` /
  `recommend_goal` (`app/routers/ai_recommender.py`).

Conventions of the embedding:

* Python `datetime` values are modelled as integer timestamps in seconds;
  `(a - b).days` (the `days` attribute of a `timedelta`, a floor) is modelled by
  `Int.fdiv (a - b) 86400`.
* Python `float` arithmetic is modelled by exact rationals `ℚ`.
* A value that may be `None` is an `Option`; Python truthiness of such a
  value (`if x:`) is `none`/`0`/`[]`/empty-string falsy, everything else
  truthy, and is spelled out at each use site.
* `Task.priority` may hold either an integer (the column type, 1/2/3) or a
  string; it is modelled by the sum type `PyPriority`.
* A raised Python exception is an `Except .error`; `PyError` names the
  exception classes that actually occur in the modelled code paths.
-/

namespace AiTodo

/-- A contribution ledger entry, `{"value": .., "task_id": .., "timestamp": ..}`,
as appended by `update_task` in `app/services/task_service.py`. -/
structure Contribution where
  value : ℚ
  task_id : Nat
  timestamp : Int
deriving DecidableEq, Repr

/-- A row of the `metrics` table (`app/models/goal.py`, class `Metric`).
`contributions_list` is a serialized JSON column: `none` models a string that
fails to decode (`json.JSONDecodeError`) or a NULL, `some l` a well-formed
serialized list.  `user_id` is the column written by `create_metric` of the
`goals` router and filtered on by the `metrics` router. -/
structure MetricRow where
  id : Nat
  name : String
  description : Option String := none
  type : String := "target"
  unit : String := ""
  target_value : Option ℚ := none
  current_value : ℚ := 0
  contributions_list : Option (List Contribution) := some []
  goal_id : Nat := 0
  user_id : Nat := 1
deriving DecidableEq, Repr

/-- The value of `Task.priority` as it can actually occur in the database:
the ORM column is an integer (1=high, 2=medium, 3=low per
`app/models/task.py`), but several code paths compare it against the strings
"high"/"medium"/"low". -/
inductive PyPriority where
  | pint (n : Int)
  | pstr (s : String)
deriving DecidableEq, Repr

/-- A row of the `tasks` table (`app/models/task.py`, class `Task`). -/
structure TaskRow where
  id : Nat
  title : String := ""
  description : Option String := none
  completed : Bool := false
  priority : PyPriority := .pint 2
  due_date : Option Int := none
  user_id : Nat := 1
  parent_id : Option Nat := none
  goal_id : Option Nat := none
  metric_id : Option Nat := none
  estimated_minutes : Option Int := none
  contribution_value : Option ℚ := none
  completion_time : Option Int := none
  completion_order : Option Nat := none
  tags : Option (List String) := some []
deriving DecidableEq, Repr

/-- A row of the `goal_targets` table (`app/models/goal.py`, class
`GoalTarget`). -/
structure GoalTargetRow where
  id : String
  title : String := ""
  deadline : Option Int := none
  status : String := "concept"
deriving DecidableEq, Repr

/-- A `goals` row together with its loaded relationship collections, as the
recommender service receives it (`app/models/goal.py`, class `Goal`). -/
structure GoalRow where
  id : Nat
  title : String := ""
  description : Option String := none
  priority : Option String := none
  user_id : Nat := 1
  parent_id : Option Nat := none
  current_strategy_id : Option Nat := none
  updated_at : Int := 0
  targets : List GoalTargetRow := []
  metrics : List MetricRow := []
  tasks : List TaskRow := []
deriving DecidableEq, Repr

/-- `(a - b).days` for two timestamps in seconds: the Python `timedelta.days`
is a floor (e.g. `timedelta(seconds=-1).days = -1`). -/
def pyDays (a b : Int) : Int := Int.fdiv (a - b) 86400

/-! ## The contribution ledger (`app/services/task_service.py`, §4.1 of the spec) -/

/-- `json.loads` of `metric.contributions_list or "[]"` with
`except json.JSONDecodeError: contributions = []`: a malformed or missing
serialized list is treated as the empty ledger. -/
def parseContributions : Option (List Contribution) → List Contribution
  | some l => l
  | none => []

/-- The sum of the `value` fields of a ledger. -/
def contributionsSum (l : List Contribution) : ℚ :=
  (l.map Contribution.value).sum

/-- The completion branch of `update_task` applied to the metric: append
`{"value": float(v), "task_id": tid, "timestamp": ts}` to the parsed ledger,
re-serialize it, and set `current_value = sum(float(c["value"]) for c in
contributions)`. -/
def record_contribution (m : MetricRow) (tid : Nat) (v : ℚ) (ts : Int) : MetricRow :=
  let contributions := parseContributions m.contributions_list ++ [⟨v, tid, ts⟩]
  { m with contributions_list := some contributions
           current_value := contributionsSum contributions }

/-- The un-completion branch of `update_task` applied to the metric: drop
every entry with `c.get("task_id") == tid`, re-serialize, and recompute
`current_value` as the sum of the remaining entries. -/
def remove_contribution (m : MetricRow) (tid : Nat) : MetricRow :=
  let contributions := (parseContributions m.contributions_list).filter
    (fun c => c.task_id ≠ tid)
  { m with contributions_list := some contributions
           current_value := contributionsSum contributions }

/-- One ledger operation: a task completion records a contribution, an
un-completion removes one. -/
inductive LedgerOp where
  | record (tid : Nat) (v : ℚ) (ts : Int)
  | remove (tid : Nat)
deriving DecidableEq, Repr

/-- Apply one ledger operation to a metric. -/
def applyLedgerOp (m : MetricRow) : LedgerOp → MetricRow
  | .record tid v ts => record_contribution m tid v ts
  | .remove tid => remove_contribution m tid

/-- Apply a sequence of ledger operations from left to right. -/
def applyLedgerOps (m : MetricRow) (ops : List LedgerOp) : MetricRow :=
  ops.foldl applyLedgerOp m

/-- The invariant of the spec: the persisted `current_value` equals the sum of the
`value` fields of the entries of `contributions_list`. -/
def ledgerInvariant (m : MetricRow) : Prop :=
  m.current_value = contributionsSum (parseContributions m.contributions_list)

/-- What `prepare_metric_for_response` (`app/routers/goals.py`) returns for a
metric. -/
structure MetricResponse where
  id : Nat
  name : String
  description : Option String
  type : String
  unit : String
  target_value : Option ℚ
  current_value : ℚ
  goal_id : Nat
  contributions_list : List Contribution
deriving DecidableEq, Repr

/-- `prepare_metric_for_response`: parse the serialized ledger (malformed ⇒
empty), then `current_value = sum(float(c["value"]) for c in contributions)
if contributions else 0.0` — the stored `current_value` column is ignored. -/
def prepare_metric_for_response (m : MetricRow) : MetricResponse :=
  let contributions := parseContributions m.contributions_list
  let current_value := if contributions = [] then 0 else contributionsSum contributions
  { id := m.id
    name := m.name
    description := m.description
    type := m.type
    unit := m.unit
    target_value := m.target_value
    current_value := current_value
    goal_id := m.goal_id
    contributions_list := contributions }

end AiTodo

namespace AiTodo

/-! ## Stable sorting, as CPython does it

The Python `list.sort` / `sorted` are stable, also with `reverse=True`.
The embedding uses `List.insertionSort` of Mathlib, which is stable for the
relations used here, and characterizes the head of the sorted list (the
element every modelled call site selects) as `firstBest r l`: the first
element of `l` that is `r`-better-or-equal than every best element after it. -/

/-- The first element of the list that wins against the best of the rest:
`firstBest r l` is the element a stable sort by `r` puts first.  Ties are
broken in favor of the earlier element. -/
def firstBest (r : α → α → Prop) [DecidableRel r] : List α → Option α
  | [] => none
  | a :: l =>
    match firstBest r l with
    | none => some a
    | some b => if r a b then some a else some b

theorem firstBest_eq_none (r : α → α → Prop) [DecidableRel r] :
    ∀ l : List α, firstBest r l = none ↔ l = [] := by
  intro l
  cases l with
  | nil => simp [firstBest]
  | cons a l =>
    simp only [firstBest]
    cases h : firstBest r l with
    | none => simp
    | some b =>
      by_cases hr : r a b <;> simp [hr]

theorem head_orderedInsert (r : α → α → Prop) [DecidableRel r] (a : α) (s : List α) :
    (List.orderedInsert r a s).head? =
      match s with
      | [] => some a
      | b :: _ => if r a b then some a else some b := by
  cases s with
  | nil => rfl
  | cons b t =>
    simp only [List.orderedInsert]
    by_cases hr : r a b <;> simp [hr]

/-- The head of a stable insertion sort is `firstBest`. -/
theorem head_insertionSort (r : α → α → Prop) [DecidableRel r] :
    ∀ l : List α, (List.insertionSort r l).head? = firstBest r l := by
  intro l
  induction l with
  | nil => rfl
  | cons a l ih =>
    simp only [List.insertionSort, firstBest]
    rw [head_orderedInsert]
    cases hs : List.insertionSort r l with
    | nil =>
      have hl : l = [] := by
        have := List.perm_insertionSort r l
        rw [hs] at this
        exact this.symm.eq_nil
      subst hl
      simp [firstBest]
    | cons b t =>
      have hb : firstBest r l = some b := by
        rw [← ih, hs]; rfl
      rw [hb]

/-- `firstBest` really is the stable selection: the chosen element splits the
list so that every earlier element is strictly worse, and it is at least as
good as every element of the list.  `r` is assumed total and transitive, which
holds for every comparison key used below. -/
theorem firstBest_spec (r : α → α → Prop) [DecidableRel r]
    (total : ∀ a b, r a b ∨ r b a) (trans : ∀ {a b c}, r a b → r b c → r a c) :
    ∀ l x, firstBest r l = some x →
      ∃ l₁ l₂, l = l₁ ++ x :: l₂ ∧ (∀ y ∈ l₁, ¬ r y x) ∧ (∀ y ∈ l, r x y) := by
  intro l
  induction l with
  | nil => intro x hx; simp [firstBest] at hx
  | cons a l ih =>
    intro x hx
    have hrefl : ∀ c : α, r c c := fun c => (total c c).elim id id
    simp only [firstBest] at hx
    cases hb : firstBest r l with
    | none =>
      rw [hb] at hx
      dsimp only at hx
      have hax : a = x := by injection hx
      subst hax
      have hl : l = [] := (firstBest_eq_none r l).mp hb
      subst hl
      refine ⟨[], [], rfl, by simp, ?_⟩
      intro y hy
      rcases List.mem_cons.mp hy with h | h
      · subst h; exact hrefl _
      · simp at h
    | some b =>
      rw [hb] at hx
      dsimp only at hx
      by_cases hr : r a b
      · rw [if_pos hr] at hx
        have hax : a = x := by injection hx
        subst hax
        obtain ⟨l₁, l₂, hsplit, hfirst, hbest⟩ := ih b hb
        refine ⟨[], l, rfl, by simp, ?_⟩
        intro y hy
        rcases List.mem_cons.mp hy with h | h
        · subst h; exact hrefl _
        · exact trans hr (hbest y h)
      · rw [if_neg hr] at hx
        have hbx : b = x := by injection hx
        subst hbx
        obtain ⟨l₁, l₂, hsplit, hfirst, hbest⟩ := ih b hb
        refine ⟨a :: l₁, l₂, by rw [hsplit]; simp, ?_, ?_⟩
        · intro y hy
          rcases List.mem_cons.mp hy with h | h
          · subst h; exact hr
          · exact hfirst y h
        · intro y hy
          rcases List.mem_cons.mp hy with h | h
          · subst h
            exact (total y b).resolve_left hr
          · exact hbest y h

/-- Splitting a mapped list around a distinguished element. -/
theorem map_eq_append_cons (f : α → β) :
    ∀ (l : List α) (L₁ L₂ : List β) (y : β), l.map f = L₁ ++ y :: L₂ →
      ∃ l₁ x l₂, l = l₁ ++ x :: l₂ ∧ l₁.map f = L₁ ∧ f x = y ∧ l₂.map f = L₂ := by
  intro l
  induction l with
  | nil => intro L₁ L₂ y h; simp at h
  | cons a l ih =>
    intro L₁ L₂ y h
    cases L₁ with
    | nil =>
      simp only [List.map_cons, List.nil_append] at h
      exact ⟨[], a, l, rfl, rfl, (List.cons.injEq _ _ _ _ ▸ h).1,
        (List.cons.injEq _ _ _ _ ▸ h).2⟩
    | cons c L₁ =>
      simp only [List.map_cons, List.cons_append, List.cons.injEq] at h
      obtain ⟨l₁, x, l₂, hsplit, hmap₁, hfx, hmap₂⟩ := ih L₁ L₂ y h.2
      exact ⟨a :: l₁, x, l₂, by rw [hsplit]; rfl, by simp [h.1, hmap₁], hfx, hmap₂⟩

end AiTodo

namespace AiTodo

/-! ## C1: the ledger invariant -/

theorem applyLedgerOp_invariant (m : MetricRow) (op : LedgerOp) :
    ledgerInvariant (applyLedgerOp m op) := by
  cases op <;>
    simp [applyLedgerOp, record_contribution, remove_contribution, ledgerInvariant,
      parseContributions]

/-- C1.  For every metric, after any (non-empty) sequence of
record-contribution (task completed) and remove-contribution (task
un-completed) operations, `current_value` equals the sum of the `value`
fields of `contributions_list`; and a read through
`prepare_metric_for_response` recomputes the value from the ledger, so that a
divergent persisted `current_value` is never the source of truth. -/
theorem metric_current_value_invariant :
    (∀ (m : MetricRow) (ops : List LedgerOp), ops ≠ [] →
      ledgerInvariant (applyLedgerOps m ops)) ∧
    (∀ m : MetricRow, (prepare_metric_for_response m).current_value =
      contributionsSum (parseContributions m.contributions_list)) := by
  constructor
  · intro m ops hne
    rcases List.eq_nil_or_concat ops with h | ⟨L, op, h⟩
    · exact absurd h hne
    · subst h
      rw [applyLedgerOps, List.concat_eq_append, List.foldl_append]
      exact applyLedgerOp_invariant _ op
  · intro m
    by_cases h : parseContributions m.contributions_list = [] <;>
      simp [prepare_metric_for_response, h, contributionsSum]

/-- Witness for C1 at a concrete metric whose stored `current_value` (99)
disagrees with its ledger. -/
theorem metric_current_value_invariant_witness :
    (([LedgerOp.record 3 (5/2) 0, LedgerOp.remove 7] : List LedgerOp) ≠ []) ∧
    ledgerInvariant (applyLedgerOps
      { id := 1, name := "pages", current_value := 99,
        contributions_list := some [⟨4, 7, 0⟩] }
      [LedgerOp.record 3 (5/2) 0, LedgerOp.remove 7]) ∧
    (prepare_metric_for_response
        { id := 1, name := "pages", current_value := 99,
          contributions_list := some [⟨4, 7, 0⟩] }).current_value =
      contributionsSum (parseContributions (some [⟨4, 7, 0⟩])) :=
  ⟨by simp,
   metric_current_value_invariant.1 _ _ (by simp),
   metric_current_value_invariant.2 _⟩

/-! ## `update_task` (`app/services/task_service.py`) -/

/-- The `TaskUpdate` request body (`app/schemas/task.py`): every field is
optional.  The outer `Option` is presence in the request
(`model_dump(exclude_unset=True)` drops absent fields); for nullable columns
the inner `Option` is the value written. -/
structure TaskUpdate where
  title : Option String := none
  description : Option (Option String) := none
  completed : Option Bool := none
  priority : Option PyPriority := none
  due_date : Option (Option Int) := none
  tags : Option (Option (List String)) := none
  parent_id : Option (Option Nat) := none
  estimated_minutes : Option (Option Int) := none
  goal_id : Option (Option Nat) := none
  metric_id : Option (Option Nat) := none
  contribution_value : Option (Option ℚ) := none
deriving DecidableEq, Repr

/-- `for field, value in update_data.items(): setattr(db_task, field, value)`,
after the special case that a `tags` field explicitly set to `None` is
replaced by `[]`. -/
def applyTaskUpdate (t : TaskRow) (u : TaskUpdate) : TaskRow :=
  { t with
    title := u.title.getD t.title
    description := u.description.getD t.description
    completed := u.completed.getD t.completed
    priority := u.priority.getD t.priority
    due_date := u.due_date.getD t.due_date
    tags := match u.tags with
      | none => t.tags
      | some none => some []
      | some (some l) => some l
    parent_id := u.parent_id.getD t.parent_id
    estimated_minutes := u.estimated_minutes.getD t.estimated_minutes
    goal_id := u.goal_id.getD t.goal_id
    metric_id := u.metric_id.getD t.metric_id
    contribution_value := u.contribution_value.getD t.contribution_value }

/-- The database state the task service operates on. -/
structure Db where
  tasks : List TaskRow
  metrics : List MetricRow
deriving DecidableEq, Repr

/-- An HTTP error response: status code and `{"detail": ...}` body. -/
structure HttpDetail where
  status : Nat
  detail : String
deriving DecidableEq, Repr

/-- `get_task`: `db.query(Task).filter(Task.id == task_id, Task.user_id ==
user_id).first()`, 404 if absent, and `if task.tags is None: task.tags = []`. -/
def get_task (db : Db) (task_id user_id : Nat) : Except HttpDetail TaskRow :=
  match db.tasks.find? (fun t => t.id == task_id && t.user_id == user_id) with
  | none => .error ⟨404, "Task not found"⟩
  | some t => .ok (if t.tags = none then { t with tags := some [] } else t)

/-- Python truthiness of an optional integer foreign key (`None` and `0` are
falsy). -/
def optNatTruthy : Option Nat → Bool
  | some n => n != 0
  | none => false

/-- Python truthiness of an optional float (`None` and `0.0` are falsy). -/
def optRatTruthy : Option ℚ → Bool
  | some v => v != 0
  | none => false

/-- The non-null `completion_order` values of the tasks of the user. -/
def completionOrders (db : Db) (user_id : Nat) : List Nat :=
  db.tasks.filterMap (fun t => if t.user_id = user_id then t.completion_order else none)

/-- Maximum of a list of naturals, `0` for the empty list. -/
def listMaxNat : List Nat → Nat
  | [] => 0
  | x :: xs => Nat.max x (listMaxNat xs)

theorem le_listMaxNat : ∀ (l : List Nat), ∀ x ∈ l, x ≤ listMaxNat l := by
  intro l
  induction l with
  | nil => intro x hx; simp at hx
  | cons a l ih =>
    intro x hx
    rcases List.mem_cons.mp hx with h | h
    · subst h; exact Nat.le_max_left _ _
    · exact le_trans (ih x h) (Nat.le_max_right _ _)

/-- The "next completion order" of `update_task`: query the tasks of the user with
`completion_order` non-null ordered descending, take `first()`, then
`(last_completed.completion_order + 1) if last_completed else 1` — i.e. one
more than the maximum assigned order (`1` when none is assigned). -/
def nextCompletionOrder (db : Db) (user_id : Nat) : Nat :=
  listMaxNat (completionOrders db user_id) + 1

/-- Write a task row back (ORM identity is the primary key). -/
def replaceTask (db : Db) (t : TaskRow) : Db :=
  { db with tasks := db.tasks.map (fun x => if x.id = t.id then t else x) }

/-- Write a metric row back. -/
def replaceMetric (db : Db) (m : MetricRow) : Db :=
  { db with metrics := db.metrics.map (fun x => if x.id = m.id then m else x) }

/-- Stamp a task as completed: `db_task.completion_time = datetime.utcnow()`
and `db_task.completion_order = (last_completed.completion_order + 1) if
last_completed else 1`. -/
def completedTask (db : Db) (t1 : TaskRow) (user_id : Nat) (now : Int) : TaskRow :=
  { t1 with completion_time := some now
            completion_order := some (nextCompletionOrder db user_id) }

/-- The metric write of the completion branch of `update_task`: under
`if db_task.metric_id and db_task.contribution_value:`, look the metric up by
id and record the contribution (`if metric:` — a missing metric is skipped). -/
def recordTaskMetric (db : Db) (task_id : Nat) (t2 : TaskRow) (now : Int) : Db :=
  if optNatTruthy t2.metric_id && optRatTruthy t2.contribution_value then
    match t2.metric_id with
    | some mid =>
      match db.metrics.find? (fun m => m.id == mid) with
      | some m =>
        replaceMetric db (record_contribution m task_id (t2.contribution_value.getD 0) now)
      | none => db
    | none => db
  else db

/-- The metric write of the un-completion branch of `update_task`: same guard
and lookup, then remove the contribution entries of this task. -/
def removeTaskMetric (db : Db) (task_id : Nat) (t2 : TaskRow) : Db :=
  if optNatTruthy t2.metric_id && optRatTruthy t2.contribution_value then
    match t2.metric_id with
    | some mid =>
      match db.metrics.find? (fun m => m.id == mid) with
      | some m => replaceMetric db (remove_contribution m task_id)
      | none => db
    | none => db
  else db

/-- `update_task` (`app/services/task_service.py`, lines 57-130): fetch the
task (404 if absent), apply the update fields, then

* if the update sets `completed=True` and the task has no `completion_time`:
  stamp `completion_time`, assign the next `completion_order`, and — when
  `metric_id` and `contribution_value` are truthy and the metric exists —
  record the contribution on the metric;
* if the update sets `completed=False` and the task has a `completion_time`:
  clear `completion_time` and `completion_order` and remove the contribution
  entries of this task from the metric under the same guard;
* otherwise just persist the updated fields. -/
def update_task (db : Db) (task_id : Nat) (u : TaskUpdate) (user_id : Nat) (now : Int) :
    Except HttpDetail (Db × TaskRow) :=
  match get_task db task_id user_id with
  | .error e => .error e
  | .ok t0 =>
    let t1 := applyTaskUpdate t0 u
    if u.completed = some true ∧ t1.completion_time = none then
      let t2 := completedTask db t1 user_id now
      .ok (replaceTask (recordTaskMetric db task_id t2 now) t2, t2)
    else if u.completed = some false ∧ t1.completion_time ≠ none then
      let t2 := { t1 with completion_time := none, completion_order := none }
      .ok (replaceTask (removeTaskMetric db task_id t2) t2, t2)
    else
      .ok (replaceTask db t1, t1)

end AiTodo

namespace AiTodo


/-! ## C3: completion time and order bookkeeping -/

/-- C3.  Completing a task (an update with `completed=True` on a task in the
normal incomplete state) stamps `completion_time` and assigns a
`completion_order` strictly greater than every order previously assigned to
the tasks of that user; un-completing a completed task clears both to null; and an
update with `completed=True` on a task that is already completed leaves both
fields untouched (the order is never reassigned while the task stays
completed). -/
theorem completion_order_bookkeeping :
    (∀ (db : Db) (task_id : Nat) (u : TaskUpdate) (user_id : Nat) (now : Int)
        (t0 : TaskRow),
      get_task db task_id user_id = .ok t0 →
      u.completed = some true →
      t0.completed = false → t0.completion_time = none →
      ∃ db1 t2, update_task db task_id u user_id now = .ok (db1, t2) ∧
        t2.completed = true ∧
        t2.completion_time = some now ∧
        t2.completion_order = some (nextCompletionOrder db user_id) ∧
        ∀ t ∈ db.tasks, t.user_id = user_id →
          ∀ n : Nat, t.completion_order = some n → n < nextCompletionOrder db user_id) ∧
    (∀ (db : Db) (task_id : Nat) (u : TaskUpdate) (user_id : Nat) (now : Int)
        (t0 : TaskRow),
      get_task db task_id user_id = .ok t0 →
      u.completed = some false →
      t0.completed = true → t0.completion_time ≠ none →
      ∃ db1 t2, update_task db task_id u user_id now = .ok (db1, t2) ∧
        t2.completed = false ∧
        t2.completion_time = none ∧ t2.completion_order = none) ∧
    (∀ (db : Db) (task_id : Nat) (u : TaskUpdate) (user_id : Nat) (now : Int)
        (t0 : TaskRow),
      get_task db task_id user_id = .ok t0 →
      u.completed = some true →
      t0.completed = true → t0.completion_time ≠ none →
      ∃ db1 t2, update_task db task_id u user_id now = .ok (db1, t2) ∧
        t2.completion_time = t0.completion_time ∧
        t2.completion_order = t0.completion_order) := by
  refine ⟨?_, ?_, ?_⟩
  · intro db task_id u user_id now t0 hget hc hc0 ht0
    have hcond : u.completed = some true ∧ (applyTaskUpdate t0 u).completion_time = none :=
      ⟨hc, ht0⟩
    have hrun : update_task db task_id u user_id now =
        .ok (replaceTask
              (recordTaskMetric db task_id
                (completedTask db (applyTaskUpdate t0 u) user_id now) now)
              (completedTask db (applyTaskUpdate t0 u) user_id now),
            completedTask db (applyTaskUpdate t0 u) user_id now) := by
      unfold update_task
      rw [hget]
      dsimp only
      rw [if_pos hcond]
    refine ⟨_, _, hrun, ?_, rfl, rfl, ?_⟩
    · simp [completedTask, applyTaskUpdate, hc]
    · intro t ht hu n hn
      have hmem : n ∈ completionOrders db user_id := by
        apply List.mem_filterMap.mpr
        exact ⟨t, ht, by simp [hu, hn]⟩
      exact Nat.lt_succ_of_le (le_listMaxNat _ n hmem)
  · intro db task_id u user_id now t0 hget hc hc0 ht0
    have hguard1 : ¬ (u.completed = some true ∧ (applyTaskUpdate t0 u).completion_time = none) := by
      simp [hc]
    have hcond : u.completed = some false ∧ (applyTaskUpdate t0 u).completion_time ≠ none :=
      ⟨hc, ht0⟩
    have hrun : update_task db task_id u user_id now =
        .ok (replaceTask
              (removeTaskMetric db task_id
                { applyTaskUpdate t0 u with completion_time := none, completion_order := none })
              { applyTaskUpdate t0 u with completion_time := none, completion_order := none },
            { applyTaskUpdate t0 u with completion_time := none, completion_order := none }) := by
      unfold update_task
      rw [hget]
      dsimp only
      rw [if_neg hguard1, if_pos hcond]
    refine ⟨_, _, hrun, ?_, rfl, rfl⟩
    simp [applyTaskUpdate, hc]
  · intro db task_id u user_id now t0 hget hc hc0 ht0
    have hguard1 : ¬ (u.completed = some true ∧ (applyTaskUpdate t0 u).completion_time = none) := by
      intro h
      exact ht0 h.2
    have hguard2 : ¬ (u.completed = some false ∧ (applyTaskUpdate t0 u).completion_time ≠ none) := by
      simp [hc]
    have hrun : update_task db task_id u user_id now =
        .ok (replaceTask db (applyTaskUpdate t0 u), applyTaskUpdate t0 u) := by
      unfold update_task
      rw [hget]
      dsimp only
      rw [if_neg hguard1, if_neg hguard2]
    exact ⟨_, _, hrun, rfl, rfl⟩



/-- A completed task of order 4, used by the C3 witness. -/
def taskC3done : TaskRow :=
  { id := 1, user_id := 1, completed := true, completion_time := some 10,
    completion_order := some 4 }

/-- An incomplete task, used by the C3 witness. -/
def taskC3todo : TaskRow :=
  { id := 2, user_id := 1 }

/-- The concrete two-task database used by the C3 witness. -/
def dbC3 : Db :=
  ⟨[taskC3done, taskC3todo], []⟩

/-- Witness for C3: a user with an already-completed task of order 4
completes a second task (it gets order 5 > 4), un-completes the first, and a
redundant `completed=True` on the already-completed first task changes
nothing. -/
theorem completion_order_bookkeeping_witness :
    (get_task dbC3 2 1 = .ok taskC3todo) ∧
    (∃ db1 t2, update_task dbC3 2 { completed := some true } 1 20 = .ok (db1, t2) ∧
      t2.completed = true ∧
      t2.completion_time = some 20 ∧
      t2.completion_order = some (nextCompletionOrder dbC3 1) ∧
      ∀ t ∈ dbC3.tasks, t.user_id = 1 →
        ∀ n : Nat, t.completion_order = some n → n < nextCompletionOrder dbC3 1) ∧
    (∃ db1 t2, update_task dbC3 1 { completed := some false } 1 20 = .ok (db1, t2) ∧
      t2.completed = false ∧ t2.completion_time = none ∧ t2.completion_order = none) ∧
    (∃ db1 t2, update_task dbC3 1 { completed := some true } 1 20 = .ok (db1, t2) ∧
      t2.completion_time = some 10 ∧ t2.completion_order = some 4) := by
  have h1 : get_task dbC3 2 1 = .ok taskC3todo := by rfl
  have h2 : get_task dbC3 1 1 = .ok taskC3done := by rfl
  refine ⟨h1, ?_, ?_, ?_⟩
  · exact completion_order_bookkeeping.1 dbC3 2 { completed := some true } 1 20
      taskC3todo h1 rfl rfl rfl
  · exact completion_order_bookkeeping.2.1 dbC3 1 { completed := some false } 1 20
      taskC3done h2 rfl rfl (by simp [taskC3done])
  · obtain ⟨db1, t2, h, hT, hO⟩ := completion_order_bookkeeping.2.2 dbC3 1
      { completed := some true } 1 20 taskC3done h2 rfl rfl (by simp [taskC3done])
    exact ⟨db1, t2, h, by rw [hT]; rfl, by rw [hO]; rfl⟩

end AiTodo

namespace AiTodo

/-! ## `update_goal` (`app/routers/goals.py`) and `get_metrics` (`app/routers/metrics.py`) -/

/-- The `GoalUpdate` request body (`app/schemas/goal.py`): outer `Option` is
presence in the request, inner `Option` the (nullable) value written. -/
structure GoalUpdate where
  title : Option String := none
  description : Option (Option String) := none
  priority : Option (Option String) := none
  parent_id : Option (Option Nat) := none
  current_strategy_id : Option (Option Nat) := none
deriving DecidableEq, Repr

/-- `for field, value in goal_update.dict(exclude_unset=True).items():
setattr(goal, field, value)`. -/
def applyGoalUpdate (g : GoalRow) (u : GoalUpdate) : GoalRow :=
  { g with
    title := u.title.getD g.title
    description := u.description.getD g.description
    priority := u.priority.getD g.priority
    parent_id := u.parent_id.getD g.parent_id
    current_strategy_id := u.current_strategy_id.getD g.current_strategy_id }

/-- `PUT /goals/{goal_id}` (`app/routers/goals.py`, `update_goal`): fetch the
goal by id alone (404 if absent), reject a different owner with 403, then
apply every supplied field with no further validation — in particular there
is no self-parent or ancestor-cycle check on `parent_id` — and persist. -/
def update_goal (goals : List GoalRow) (goal_id : Nat) (u : GoalUpdate) (user_id : Nat) :
    Except HttpDetail (List GoalRow × GoalRow) :=
  match goals.find? (fun g => g.id == goal_id) with
  | none => .error ⟨404, "Goal not found"⟩
  | some g =>
    if g.user_id ≠ user_id then
      .error ⟨403, "Not authorized to update this goal"⟩
    else
      let g1 := applyGoalUpdate g u
      .ok (goals.map (fun x => if x.id = g1.id then g1 else x), g1)

/-- `GET /metrics/` (`app/routers/metrics.py`, `get_metrics`):
`db.query(Metric).filter(Metric.user_id == 1).all()` — the handler has no
authenticated-user dependency at all and always reads the metrics of the
fixed user id 1. -/
def get_metrics (metrics : List MetricRow) : List MetricRow :=
  metrics.filter (fun m => m.user_id == 1)

/-! ## C2: no cycle validation on goal reparenting -/

/-- Counterexample to C2 as stated: the owner of goal 1 sets its `parent_id`
to 1 (its own id); `update_goal` answers `.ok` — not a 400 validation
error — and the stored goal is mutated to be its own parent. -/
theorem goal_self_parent_accepted :
    ∃ gs g1, update_goal [{ id := 1, user_id := 1 }] 1 { parent_id := some (some 1) } 1 =
        .ok (gs, g1) ∧ g1.id = 1 ∧ g1.parent_id = some 1 :=
  ⟨_, _, rfl, rfl, rfl⟩

/-- C2 amended.  `update_goal` performs no parent-cycle validation: whenever
the goal exists and belongs to the requesting user, every supplied field —
including a `parent_id` equal to the goal id itself or to any descendant —
is applied verbatim and the call succeeds; the only rejections are 404
(no such goal) and 403 (different owner), which return before any mutation. -/
theorem update_goal_no_cycle_check :
    (∀ (goals : List GoalRow) (goal_id : Nat) (u : GoalUpdate) (user_id : Nat) (g : GoalRow),
      goals.find? (fun g0 => g0.id == goal_id) = some g →
      g.user_id = user_id →
      update_goal goals goal_id u user_id =
        .ok (goals.map (fun x => if x.id = (applyGoalUpdate g u).id then applyGoalUpdate g u else x),
          applyGoalUpdate g u)) ∧
    (∀ (goals : List GoalRow) (goal_id : Nat) (u : GoalUpdate) (user_id : Nat) (g : GoalRow),
      goals.find? (fun g0 => g0.id == goal_id) = some g →
      g.user_id ≠ user_id →
      update_goal goals goal_id u user_id = .error ⟨403, "Not authorized to update this goal"⟩) ∧
    (∀ (goals : List GoalRow) (goal_id : Nat) (u : GoalUpdate) (user_id : Nat),
      goals.find? (fun g0 => g0.id == goal_id) = none →
      update_goal goals goal_id u user_id = .error ⟨404, "Goal not found"⟩) := by
  refine ⟨?_, ?_, ?_⟩
  · intro goals goal_id u user_id g hfind hown
    unfold update_goal
    rw [hfind]
    dsimp only
    rw [if_neg (by simp [hown])]
  · intro goals goal_id u user_id g hfind hown
    unfold update_goal
    rw [hfind]
    dsimp only
    rw [if_pos hown]
  · intro goals goal_id u user_id hfind
    unfold update_goal
    rw [hfind]

/-- Witness for the amended C2 at concrete inputs: the self-parent update is
applied for the owner, a foreign user gets 403, and a missing goal 404. -/
theorem update_goal_no_cycle_check_witness :
    ((([{ id := 1, user_id := 1 }] : List GoalRow).find? (fun g0 => g0.id == 1) =
        some { id := 1, user_id := 1 }) ∧
      update_goal [{ id := 1, user_id := 1 }] 1 { parent_id := some (some 1) } 1 =
        .ok ([{ id := 1, user_id := 1 }].map
            (fun x => if x.id = (applyGoalUpdate { id := 1, user_id := 1 }
                { parent_id := some (some 1) }).id then
              applyGoalUpdate { id := 1, user_id := 1 } { parent_id := some (some 1) } else x),
          applyGoalUpdate { id := 1, user_id := 1 } { parent_id := some (some 1) })) ∧
    (update_goal [{ id := 1, user_id := 1 }] 1 { parent_id := some (some 1) } 2 =
      .error ⟨403, "Not authorized to update this goal"⟩) ∧
    (update_goal [{ id := 1, user_id := 1 }] 7 { parent_id := some (some 1) } 1 =
      .error ⟨404, "Goal not found"⟩) := by
  refine ⟨⟨by rfl, ?_⟩, ?_, ?_⟩
  · exact update_goal_no_cycle_check.1 _ 1 _ 1 _ (by rfl) rfl
  · exact update_goal_no_cycle_check.2.1 _ 1 _ 2 { id := 1, user_id := 1 } (by rfl) (by simp)
  · exact update_goal_no_cycle_check.2.2 _ 7 _ 1 (by rfl)

end AiTodo

namespace AiTodo

/-! ## The deterministic fallback task scorer
(`create_fallback_recommendation`, `app/services/ai_recommender_service.py`) -/

/-- The Python exceptions that occur in the modelled code paths. -/
inductive PyError where
  | keyError
  | indexError
  | valueError (msg : String)
  | providerError
deriving DecidableEq, Repr

/-- A `TaskWithAIRecommendation` response (`app/schemas/task.py`): the chosen
task plus confidence and reasoning. -/
structure TaskRec where
  task : TaskRow
  ai_confidence : ℚ
  reasoning : String
deriving DecidableEq, Repr

/-- The dict lookup `{"high": 0, "medium": 1, "low": 2}[t.priority]`:
`none` models the `KeyError` raised for every other priority value — in
particular for the integer priorities 1/2/3 that the ORM column
(`app/models/task.py`) actually stores. -/
def priorityIndexMap : PyPriority → Option Nat
  | .pstr "high" => some 0
  | .pstr "medium" => some 1
  | .pstr "low" => some 2
  | _ => none

/-- `t.due_date.timestamp() if t.due_date else float("inf")`. -/
def dueKey (t : TaskRow) : WithTop Int :=
  match t.due_date with
  | some d => (d : WithTop Int)
  | none => ⊤

/-- The composite sort key of one task; `none` is the `KeyError`. -/
def taskSortKey (t : TaskRow) : Option (Nat × WithTop Int) :=
  (priorityIndexMap t.priority).map (fun i => (i, dueKey t))

/-- The composite key under the assumption that the priority maps; the
`getD` default never fires then. -/
def taskKey (t : TaskRow) : Nat × WithTop Int :=
  ((priorityIndexMap t.priority).getD 0, dueKey t)

/-- Python tuple comparison of the composite keys (lexicographic). -/
def keyLe (a b : Nat × WithTop Int) : Prop :=
  a.1 < b.1 ∨ (a.1 = b.1 ∧ a.2 ≤ b.2)

instance : DecidableRel keyLe := fun a b => by
  unfold keyLe; infer_instance

/-- `keyLe` on decorated (key, task) pairs: sorting the decorated list by key
with a stable sort is the decorate-sort-undecorate reading of
`sorted(tasks, key=...)`. -/
def keyedLe (a b : (Nat × WithTop Int) × TaskRow) : Prop := keyLe a.1 b.1

instance : DecidableRel keyedLe := fun a b => by
  unfold keyedLe; infer_instance

theorem keyLe_total : ∀ a b, keyLe a b ∨ keyLe b a := by
  intro a b
  unfold keyLe
  rcases Nat.lt_trichotomy a.1 b.1 with h | h | h
  · exact Or.inl (Or.inl h)
  · rcases le_total a.2 b.2 with h2 | h2
    · exact Or.inl (Or.inr ⟨h, h2⟩)
    · exact Or.inr (Or.inr ⟨h.symm, h2⟩)
  · exact Or.inr (Or.inl h)

theorem keyLe_trans : ∀ {a b c}, keyLe a b → keyLe b c → keyLe a c := by
  intro a b c hab hbc
  unfold keyLe at hab hbc ⊢
  rcases hab with h | ⟨h, h2⟩
  · rcases hbc with h3 | ⟨h3, -⟩
    · exact Or.inl (h.trans h3)
    · exact Or.inl (h3 ▸ h)
  · rcases hbc with h3 | ⟨h3, h4⟩
    · exact Or.inl (h ▸ h3)
    · exact Or.inr ⟨h.trans h3, h2.trans h4⟩

theorem keyedLe_total : ∀ a b, keyedLe a b ∨ keyedLe b a :=
  fun a b => keyLe_total a.1 b.1

theorem keyedLe_trans : ∀ {a b c}, keyedLe a b → keyedLe b c → keyedLe a c :=
  fun hab hbc => keyLe_trans hab hbc

/-- Evaluate the sort key on every task, as `sorted(tasks, key=...)` does
before comparing: a `KeyError` (`none`) on any element aborts the call. -/
def decorateTasks : List TaskRow → Option (List ((Nat × WithTop Int) × TaskRow))
  | [] => some []
  | t :: ts =>
    match taskSortKey t with
    | none => none
    | some k =>
      match decorateTasks ts with
      | none => none
      | some rest => some ((k, t) :: rest)

/-- `create_fallback_recommendation` (lines 218-235 of
`app/services/ai_recommender_service.py`): sort the tasks by
(priority index, due date or +inf) ascending — a stable sort — and take
element 0; confidence 0.7 and a fixed reasoning string.  A priority outside
the dict raises `KeyError`; `sorted_tasks[0]` on an empty list raises
`IndexError`. -/
def create_fallback_recommendation (tasks : List TaskRow) : Except PyError TaskRec :=
  match decorateTasks tasks with
  | none => .error .keyError
  | some keyed =>
    match (keyed.insertionSort keyedLe).head? with
    | none => .error .indexError
    | some kt => .ok ⟨kt.2, 7/10, "Recommended based on task priority and due date"⟩

/-- The priorities for which the fallback dict lookup succeeds. -/
def goodPriority (p : PyPriority) : Prop :=
  p = .pstr "high" ∨ p = .pstr "medium" ∨ p = .pstr "low"

theorem taskSortKey_of_good {t : TaskRow} (h : goodPriority t.priority) :
    taskSortKey t = some (taskKey t) := by
  rcases h with h | h | h <;>
    simp [taskSortKey, taskKey, priorityIndexMap, h]

theorem decorateTasks_of_good :
    ∀ tasks : List TaskRow, (∀ t ∈ tasks, goodPriority t.priority) →
      decorateTasks tasks = some (tasks.map (fun t => (taskKey t, t))) := by
  intro tasks
  induction tasks with
  | nil => intro h; rfl
  | cons a l ih =>
    intro h
    have ha := taskSortKey_of_good (h a (by simp))
    have hl := ih (fun t ht => h t (by simp [ht]))
    simp only [decorateTasks, ha, hl, List.map_cons]

theorem decorateTasks_of_bad :
    ∀ tasks : List TaskRow, (∃ t ∈ tasks, priorityIndexMap t.priority = none) →
      decorateTasks tasks = none := by
  intro tasks
  induction tasks with
  | nil => rintro ⟨t, ht, -⟩; simp at ht
  | cons a l ih =>
    rintro ⟨t, ht, hbad⟩
    rcases List.mem_cons.mp ht with h | h
    · subst h
      have : taskSortKey t = none := by simp [taskSortKey, hbad]
      simp only [decorateTasks, this]
    · have hl := ih ⟨t, h, hbad⟩
      simp only [decorateTasks, hl]
      cases taskSortKey a <;> rfl

/-- Shared characterization: on a non-empty list of tasks whose priorities
all map, the fallback scorer succeeds and returns the first task with the
minimal composite key. -/
theorem create_fallback_recommendation_ok (tasks : List TaskRow)
    (h1 : tasks ≠ []) (h2 : ∀ t ∈ tasks, goodPriority t.priority) :
    ∃ rec, create_fallback_recommendation tasks = .ok rec ∧
      rec.ai_confidence = 7/10 ∧
      rec.reasoning = "Recommended based on task priority and due date" ∧
      rec.task ∈ tasks ∧
      (∀ t ∈ tasks, keyLe (taskKey rec.task) (taskKey t)) ∧
      ∃ l₁ l₂, tasks = l₁ ++ rec.task :: l₂ ∧
        ∀ t ∈ l₁, ¬ keyLe (taskKey t) (taskKey rec.task) := by
  have hdec := decorateTasks_of_good tasks h2
  set keyed := tasks.map (fun t => (taskKey t, t)) with hkeyed
  have hne : keyed ≠ [] := by
    intro h
    exact h1 (List.map_eq_nil_iff.mp h)
  have hhead : (keyed.insertionSort keyedLe).head? = firstBest keyedLe keyed :=
    head_insertionSort keyedLe keyed
  cases hfb : firstBest keyedLe keyed with
  | none => exact absurd ((firstBest_eq_none keyedLe keyed).mp hfb) hne
  | some kt =>
    obtain ⟨L₁, L₂, hsplitK, hfirstK, hbestK⟩ :=
      firstBest_spec keyedLe keyedLe_total keyedLe_trans keyed kt hfb
    obtain ⟨l₁, x, l₂, hsplit, hmap₁, hdx, hmap₂⟩ :=
      map_eq_append_cons (fun t => (taskKey t, t)) tasks L₁ L₂ kt hsplitK
    have hktx : kt.2 = x := by rw [← hdx]
    have hktk : kt.1 = taskKey x := by rw [← hdx]
    refine ⟨⟨kt.2, 7/10, "Recommended based on task priority and due date"⟩, ?_, rfl, rfl, ?_, ?_, ?_⟩
    · unfold create_fallback_recommendation
      rw [hdec]
      dsimp only
      rw [hhead, hfb]
    · rw [hktx, hsplit]
      simp
    · intro t ht
      have : (taskKey t, t) ∈ keyed := by
        rw [hkeyed]
        exact List.mem_map.mpr ⟨t, ht, rfl⟩
      have hb := hbestK _ this
      rw [hktx]
      unfold keyedLe at hb
      rw [hktk] at hb
      exact hb
    · refine ⟨l₁, l₂, by rw [hsplit, hktx], ?_⟩
      intro t ht
      have : (taskKey t, t) ∈ L₁ := by
        rw [← hmap₁]
        exact List.mem_map.mpr ⟨t, ht, rfl⟩
      have hf := hfirstK _ this
      rw [hktx]
      intro hcon
      apply hf
      unfold keyedLe
      rw [hktk]
      exact hcon

end AiTodo

namespace AiTodo

/-! ## C5 and C10: the fallback task scorer -/

/-- C5.  On a non-empty task list whose priorities are all among the strings
"high"/"medium"/"low", the fallback scorer returns the task minimizing the
composite key (priority index, due date with missing dates sorting last),
with ties broken by input order: every task has a key at least as large, and
every task before the chosen one has a strictly larger key. -/
theorem fallback_task_scorer_min_key :
    ∀ (tasks : List TaskRow), tasks ≠ [] →
      (∀ t ∈ tasks, goodPriority t.priority) →
      ∃ rec, create_fallback_recommendation tasks = .ok rec ∧
        rec.task ∈ tasks ∧
        (∀ t ∈ tasks, keyLe (taskKey rec.task) (taskKey t)) ∧
        ∃ l₁ l₂, tasks = l₁ ++ rec.task :: l₂ ∧
          ∀ t ∈ l₁, ¬ keyLe (taskKey t) (taskKey rec.task) := by
  intro tasks h1 h2
  obtain ⟨rec, hrun, -, -, hmem, hmin, hsplit⟩ := create_fallback_recommendation_ok tasks h1 h2
  exact ⟨rec, hrun, hmem, hmin, hsplit⟩

/-- The high-priority task due tomorrow of the spec example. -/
def taskHighTomorrow : TaskRow :=
  { id := 1, priority := .pstr "high", due_date := some 86400 }

/-- The low-priority task due today of the spec example. -/
def taskLowToday : TaskRow :=
  { id := 2, priority := .pstr "low", due_date := some 0 }

/-- Witness for C5 at the spec example `[high due tomorrow, low due today]`:
the hypotheses hold, the theorem applies, and the selected task is the
high-priority one (priority dominates the due date). -/
theorem fallback_task_scorer_min_key_witness :
    (([taskHighTomorrow, taskLowToday] : List TaskRow) ≠ [] ∧
      ∀ t ∈ [taskHighTomorrow, taskLowToday], goodPriority t.priority) ∧
    (∃ rec, create_fallback_recommendation [taskHighTomorrow, taskLowToday] = .ok rec ∧
      rec.task ∈ [taskHighTomorrow, taskLowToday] ∧
      (∀ t ∈ [taskHighTomorrow, taskLowToday], keyLe (taskKey rec.task) (taskKey t)) ∧
      ∃ l₁ l₂, [taskHighTomorrow, taskLowToday] = l₁ ++ rec.task :: l₂ ∧
        ∀ t ∈ l₁, ¬ keyLe (taskKey t) (taskKey rec.task)) ∧
    create_fallback_recommendation [taskHighTomorrow, taskLowToday] =
      .ok ⟨taskHighTomorrow, 7/10, "Recommended based on task priority and due date"⟩ := by
  refine ⟨⟨by simp, ?_⟩, ?_, ?_⟩
  · intro t ht
    rcases List.mem_cons.mp ht with h | h
    · subst h; exact Or.inl rfl
    · simp at h
      subst h
      exact Or.inr (Or.inr rfl)
  · apply fallback_task_scorer_min_key [taskHighTomorrow, taskLowToday] (by simp)
    intro t ht
    rcases List.mem_cons.mp ht with h | h
    · subst h; exact Or.inl rfl
    · simp at h
      subst h
      exact Or.inr (Or.inr rfl)
  · rfl

/-- C10.  The fallback task scorer is total only on task lists whose
priorities all map under `{"high": 0, "medium": 1, "low": 2}`: on such
non-empty lists it returns a recommendation, while any list containing a
task with an unmapped priority — e.g. the integer encoding 1/2/3 of the ORM
column — makes it raise `KeyError` instead. -/
theorem fallback_task_scorer_priority_partiality :
    (∀ tasks : List TaskRow, tasks ≠ [] → (∀ t ∈ tasks, goodPriority t.priority) →
      ∃ rec, create_fallback_recommendation tasks = .ok rec) ∧
    (∀ tasks : List TaskRow, (∃ t ∈ tasks, priorityIndexMap t.priority = none) →
      create_fallback_recommendation tasks = .error .keyError) := by
  constructor
  · intro tasks h1 h2
    obtain ⟨rec, hrun, -⟩ := create_fallback_recommendation_ok tasks h1 h2
    exact ⟨rec, hrun⟩
  · intro tasks hbad
    unfold create_fallback_recommendation
    rw [decorateTasks_of_bad tasks hbad]

/-- Witness for C10: a singleton list with the integer priority 2 (the
column default, "medium") raises `KeyError`, while the same task with the
string priority "medium" yields a recommendation. -/
theorem fallback_task_scorer_priority_partiality_witness :
    (([({ id := 3, priority := .pint 2 } : TaskRow)] : List TaskRow) ≠ [] →
      create_fallback_recommendation [({ id := 3, priority := .pint 2 } : TaskRow)] =
        .error .keyError) ∧
    (∃ rec, create_fallback_recommendation [({ id := 3, priority := .pstr "medium" } : TaskRow)] =
      .ok rec) := by
  constructor
  · intro h
    exact fallback_task_scorer_priority_partiality.2 _
      ⟨{ id := 3, priority := .pint 2 }, by simp, rfl⟩
  · exact fallback_task_scorer_priority_partiality.1 _ (by simp)
      (fun t ht => by simp at ht; subst ht; exact Or.inr (Or.inl rfl))

end AiTodo

namespace AiTodo

/-! ## The deterministic fallback goal scorer
(`create_fallback_goal_recommendation`, `app/services/ai_recommender_service.py`,
lines 676-935) -/

/-- Per-metric importance adjustment: under
`if metric.target_value and metric.target_value > 0:` (truthiness, then the
comparison), +0.5 when `(current_value / target_value) * 100 < 25` and +0.5
when `target_value > 100`. -/
def metricImportanceBonus (m : MetricRow) : ℚ :=
  match m.target_value with
  | some tv =>
    if tv ≠ 0 ∧ 0 < tv then
      (if m.current_value / tv * 100 < 25 then 1/2 else 0) +
      (if 100 < tv then 1/2 else 0)
    else 0
  | none => 0

/-- `[task for task in goal.tasks if not task.completed]`. -/
def incompleteTasks (g : GoalRow) : List TaskRow :=
  g.tasks.filter (fun t => !t.completed)

/-- `importance_score`: base 8.0 for priority "high", 3.0 for "low", else
5.0; plus the per-metric adjustments; plus 1.0 when more than 5 incomplete
tasks exist. -/
def importance_score (g : GoalRow) : ℚ :=
  let base : ℚ :=
    if g.priority = some "high" then 8 else if g.priority = some "low" then 3 else 5
  let afterMetrics := g.metrics.foldl (fun acc m => acc + metricImportanceBonus m) base
  if 5 < (incompleteTasks g).length then afterMetrics + 1 else afterMetrics

/-- Per-target urgency bonus: for a target with a deadline,
`+2.0 if days_until_deadline <= 3 elif days_until_deadline <= 7 then +1.0`. -/
def targetUrgencyBonus (now : Int) (t : GoalTargetRow) : ℚ :=
  match t.deadline with
  | some d =>
    if pyDays d now ≤ 3 then 2 else if pyDays d now ≤ 7 then 1 else 0
  | none => 0

/-- `(current_time - goal.updated_at).days`. -/
def daysSinceUpdate (now : Int) (g : GoalRow) : Int := pyDays now g.updated_at

/-- `urgency_score`: base 5.0, plus the per-deadline bonuses, plus the
inactivity bonus (+1.5 beyond 14 days since the last update, else +0.8
beyond 7). -/
def urgency_score (now : Int) (g : GoalRow) : ℚ :=
  let afterTargets := g.targets.foldl (fun acc t => acc + targetUrgencyBonus now t) (5 : ℚ)
  if 14 < daysSinceUpdate now g then afterTargets + 3/2
  else if 7 < daysSinceUpdate now g then afterTargets + 4/5
  else afterTargets

/-- `final_score = (importance_score * 0.6) + (urgency_score * 0.4)`. -/
def final_score (now : Int) (g : GoalRow) : ℚ :=
  importance_score g * (3/5) + urgency_score now g * (2/5)

/-- The running minimum of `days_until_deadline` over the targets that have
a deadline. -/
def closestDeadlineDays (now : Int) (targets : List GoalTargetRow) : Option Int :=
  targets.foldl (fun acc t =>
    match t.deadline with
    | some d =>
      match acc with
      | none => some (pyDays d now)
      | some c => if pyDays d now < c then some (pyDays d now) else some c
    | none => acc) none

/-- The number of targets whose deadline is at most 7 days away. -/
def approachingDeadlines (now : Int) (targets : List GoalTargetRow) : Nat :=
  targets.countP (fun t =>
    match t.deadline with
    | some d => decide (pyDays d now ≤ 7)
    | none => false)

/-- One entry of the `goal_scores` list the fallback scorer builds. -/
structure GoalScore where
  goal : GoalRow
  score : ℚ
  importance_score : ℚ
  urgency_score : ℚ
  closest_deadline_days : Option Int
  approaching_deadlines : Nat
  days_since_update : Int
  incomplete_tasks : Nat
deriving DecidableEq, Repr

/-- Score one goal (the body of the scoring loop). -/
def scoreGoal (now : Int) (g : GoalRow) : GoalScore :=
  { goal := g
    score := final_score now g
    importance_score := importance_score g
    urgency_score := urgency_score now g
    closest_deadline_days := closestDeadlineDays now g.targets
    approaching_deadlines := approachingDeadlines now g.targets
    days_since_update := daysSinceUpdate now g
    incomplete_tasks := (incompleteTasks g).length }

/-- The `goal_scores` list. -/
def goalScores (goals : List GoalRow) (now : Int) : List GoalScore :=
  goals.map (scoreGoal now)

/-- `goal_scores.sort(key=lambda x: x["score"], reverse=True)`: a stable
descending comparison. -/
def scoreDesc (a b : GoalScore) : Prop := b.score ≤ a.score

instance : DecidableRel scoreDesc := fun a b => by
  unfold scoreDesc; infer_instance

theorem scoreDesc_total : ∀ a b, scoreDesc a b ∨ scoreDesc b a :=
  fun a b => le_total b.score a.score

theorem scoreDesc_trans : ∀ {a b c}, scoreDesc a b → scoreDesc b c → scoreDesc a c :=
  fun hab hbc => le_trans hbc hab

/-- The apostrophe character, as it occurs in the reasoning strings. -/
def sq : String := ⟨[Char.ofNat 39]⟩

/-- The `reasoning_parts` list, in the fixed order of the source: goal
inactivity, approaching deadlines (with its closest-deadline sub-clause),
workload, progress on metrics, missing targets, high priority. -/
def reasoningParts (now : Int) (top : GoalScore) : List String :=
  let g := top.goal
  (if 7 < top.days_since_update ∧ (g.priority = some "high" ∨ g.priority = some "medium") then
    ["this " ++ g.priority.getD "" ++ " priority goal hasn" ++ sq ++ "t been updated in "
      ++ toString top.days_since_update ++ " days"]
  else []) ++
  (if 0 < top.approaching_deadlines then
    ["it has " ++ toString top.approaching_deadlines ++ " approaching "
      ++ (if top.approaching_deadlines = 1 then "deadline" else "deadlines")] ++
    (match top.closest_deadline_days with
     | some c =>
       if c ≤ 3 then ["with the closest deadline only " ++ toString c ++ " days away"] else []
     | none => [])
  else []) ++
  (if 5 < top.incomplete_tasks then
    ["it has " ++ toString top.incomplete_tasks ++ " incomplete tasks that need attention"]
  else []) ++
  (if g.metrics.any (fun m =>
      match m.target_value with
      | some tv => decide (tv ≠ 0) && decide (0 < tv) && decide (0 < m.current_value / tv * 100)
      | none => false) then
    ["you" ++ sq ++ "ve made progress on metrics that should be maintained"]
  else []) ++
  (if g.targets = [] then ["it would benefit from defining specific targets"] else []) ++
  (if g.priority = some "high" then ["it" ++ sq ++ "s marked as high priority"] else [])

/-- Join the parts after the first: each gets ", ", the last gets ", and ". -/
def joinTail : List String → String
  | [] => ""
  | [p] => ", and " ++ p
  | p :: ps => ", " ++ p ++ joinTail ps

/-- Assemble the reasoning sentence; with no applicable clause the generic
sentence is used. -/
def renderReasoning : List String → String
  | [] => "Based on priority, targets, and deadlines."
  | p :: ps => "This goal is recommended because " ++ p ++ joinTail ps ++ "."

/-- One suggested next step (`{"description": ..., "type": ...}`). -/
structure NextStep where
  description : String
  type : String
deriving DecidableEq, Repr

/-- `0 if t.priority == "high" else (1 if t.priority == "medium" else 2)`:
unlike the fallback sort key, this ranking is total — any other priority
value (including the integer encodings) ranks as 2. -/
def taskPriorityRank (t : TaskRow) : Nat :=
  if t.priority = .pstr "high" then 0 else if t.priority = .pstr "medium" then 1 else 2

/-- The next-step task ordering: `(priority rank, due date or now + 365 days)`. -/
def nextStepTaskLe (now : Int) (a b : TaskRow) : Prop :=
  taskPriorityRank a < taskPriorityRank b ∨
    (taskPriorityRank a = taskPriorityRank b ∧
      a.due_date.getD (now + 365 * 86400) ≤ b.due_date.getD (now + 365 * 86400))

instance (now : Int) : DecidableRel (nextStepTaskLe now) := fun a b => by
  unfold nextStepTaskLe; infer_instance

/-- The targets with a deadline at most 7 days away. -/
def approachingTargets (now : Int) (g : GoalRow) : List GoalTargetRow :=
  g.targets.filter (fun t =>
    match t.deadline with
    | some d => decide (pyDays d now ≤ 7)
    | none => false)

/-- Sort key for `approaching_deadline_targets.sort(key=lambda t: t.deadline)`
(every element of the filtered list has a deadline). -/
def deadlineLe (a b : GoalTargetRow) : Prop := a.deadline.getD 0 ≤ b.deadline.getD 0

instance : DecidableRel deadlineLe := fun a b => by
  unfold deadlineLe; infer_instance

/-- The `next_steps` list, in source order: nearest approaching-deadline
target, then best incomplete task, then the first metric below its target,
then "Create specific targets" when the goal has none, else "Create a
strategy" when nothing else applied. -/
def buildNextSteps (now : Int) (g : GoalRow) : List NextStep :=
  let steps1 : List NextStep :=
    match ((approachingTargets now g).insertionSort deadlineLe).head? with
    | some t => [⟨"Focus on target: " ++ t.title, "target"⟩]
    | none => []
  let steps2 : List NextStep :=
    match ((incompleteTasks g).insertionSort (nextStepTaskLe now)).head? with
    | some t => [⟨"Complete task: " ++ t.title, "task"⟩]
    | none => []
  let steps3 : List NextStep :=
    match g.metrics.find? (fun m =>
      match m.target_value with
      | some tv => decide (tv ≠ 0) && decide (m.current_value < tv)
      | none => false) with
    | some m => [⟨"Improve metric: " ++ m.name, "metric"⟩]
    | none => []
  let steps := steps1 ++ steps2 ++ steps3
  if g.targets = [] then steps ++ [⟨"Create specific targets for this goal", "strategy"⟩]
  else if steps = [] then [⟨"Create a strategy for this goal", "strategy"⟩]
  else steps

/-- A `GoalWithAIRecommendation` response (`app/schemas/goal.py`). -/
structure GoalRecommendation where
  goal : GoalRow
  ai_confidence : ℚ
  reasoning : String
  importance_score : ℚ
  urgency_score : ℚ
  next_steps : List NextStep
deriving DecidableEq, Repr

/-- The `GoalWithAIRecommendation` record the fallback assembles for the
top-scoring entry: fixed confidence 0.7, the rendered reasoning, the scores
of the entry, and the next steps. -/
def fallbackGoalRec (now : Int) (top : GoalScore) : GoalRecommendation :=
  { goal := top.goal
    ai_confidence := 7/10
    reasoning := renderReasoning (reasoningParts now top)
    importance_score := top.importance_score
    urgency_score := top.urgency_score
    next_steps := buildNextSteps now top.goal }

/-- `create_fallback_goal_recommendation`: raise `ValueError` on an empty
list; otherwise score every goal, sort descending by score (stable), take
the top entry, and assemble reasoning and next steps for it. -/
def create_fallback_goal_recommendation (goals : List GoalRow) (now : Int) :
    Except PyError GoalRecommendation :=
  if goals = [] then .error (.valueError "No goals provided for recommendation")
  else
    match ((goalScores goals now).insertionSort scoreDesc).head? with
    | none => .error .indexError
    | some top => .ok (fallbackGoalRec now top)

end AiTodo

namespace AiTodo

/-! ## C4: the fallback goal scorer computes the claimed formulas -/

/-- Claim-side predicate: a metric with positive target and progress below
25 percent. -/
def lowProgressMetric (m : MetricRow) : Bool :=
  match m.target_value with
  | some tv => decide (0 < tv) && decide (m.current_value / tv * 100 < 25)
  | none => false

/-- Claim-side predicate: a metric with target value greater than 100. -/
def highTargetMetric (m : MetricRow) : Bool :=
  match m.target_value with
  | some tv => decide (100 < tv)
  | none => false

/-- The importance score as the claim words it: priority base, +0.5 per
low-progress metric, +0.5 per high-target metric, +1.0 for more than five
incomplete tasks. -/
def specImportanceScore (g : GoalRow) : ℚ :=
  (if g.priority = some "high" then 8 else if g.priority = some "low" then 3 else 5) +
    (1/2) * (g.metrics.countP lowProgressMetric) +
    (1/2) * (g.metrics.countP highTargetMetric) +
    (if 5 < (incompleteTasks g).length then 1 else 0)

/-- Claim-side predicate: a target whose deadline is at most 3 days away. -/
def deadlineWithin3 (now : Int) (t : GoalTargetRow) : Bool :=
  match t.deadline with
  | some d => decide (pyDays d now ≤ 3)
  | none => false

/-- Claim-side predicate: a target whose deadline is between 3 (exclusive)
and 7 (inclusive) days away. -/
def deadlineWithin7 (now : Int) (t : GoalTargetRow) : Bool :=
  match t.deadline with
  | some d => decide (3 < pyDays d now) && decide (pyDays d now ≤ 7)
  | none => false

/-- The urgency score as the claim words it. -/
def specUrgencyScore (now : Int) (g : GoalRow) : ℚ :=
  5 + 2 * (g.targets.countP (deadlineWithin3 now)) +
    1 * (g.targets.countP (deadlineWithin7 now)) +
    (if 14 < daysSinceUpdate now g then 3/2
     else if 7 < daysSinceUpdate now g then 4/5 else 0)

theorem metricImportanceBonus_eq (m : MetricRow) :
    metricImportanceBonus m =
      (if lowProgressMetric m then (1:ℚ)/2 else 0) +
      (if highTargetMetric m then (1:ℚ)/2 else 0) := by
  unfold metricImportanceBonus lowProgressMetric highTargetMetric
  cases htv : m.target_value with
  | none => simp
  | some tv =>
    by_cases hpos : 0 < tv
    · by_cases hlow : m.current_value / tv * 100 < 25 <;>
        by_cases hhigh : 100 < tv <;>
          simp [hpos, hlow, hhigh, ne_of_gt hpos] <;> norm_num
    · have hhigh : ¬ (100 < tv) := fun h => hpos (lt_trans (by norm_num) h)
      simp [hpos, hhigh]

theorem metrics_fold_eq (ms : List MetricRow) :
    ∀ b : ℚ, ms.foldl (fun acc m => acc + metricImportanceBonus m) b =
      b + (1/2) * (ms.countP lowProgressMetric) + (1/2) * (ms.countP highTargetMetric) := by
  induction ms with
  | nil => intro b; simp
  | cons m ms ih =>
    intro b
    rw [List.foldl_cons, ih, List.countP_cons, List.countP_cons, metricImportanceBonus_eq]
    by_cases h1 : lowProgressMetric m <;> by_cases h2 : highTargetMetric m <;>
      simp [h1, h2] <;> push_cast <;> ring

theorem targetUrgencyBonus_eq (now : Int) (t : GoalTargetRow) :
    targetUrgencyBonus now t =
      2 * (if deadlineWithin3 now t then (1:ℚ) else 0) +
      1 * (if deadlineWithin7 now t then (1:ℚ) else 0) := by
  unfold targetUrgencyBonus deadlineWithin3 deadlineWithin7
  cases hd : t.deadline with
  | none => simp
  | some d =>
    by_cases h3 : pyDays d now ≤ 3
    · have h37 : ¬ (3 < pyDays d now) := not_lt.mpr h3
      simp [h3, h37]
    · by_cases h7 : pyDays d now ≤ 7
      · simp [h3, h7, not_le.mp h3]
      · simp [h3, h7]

theorem targets_fold_eq (now : Int) (ts : List GoalTargetRow) :
    ∀ b : ℚ, ts.foldl (fun acc t => acc + targetUrgencyBonus now t) b =
      b + 2 * (ts.countP (deadlineWithin3 now)) + 1 * (ts.countP (deadlineWithin7 now)) := by
  induction ts with
  | nil => intro b; simp
  | cons t ts ih =>
    intro b
    rw [List.foldl_cons, ih, List.countP_cons, List.countP_cons, targetUrgencyBonus_eq]
    by_cases h1 : deadlineWithin3 now t <;> by_cases h2 : deadlineWithin7 now t <;>
      simp [h1, h2] <;> push_cast <;> ring

theorem importance_score_eq (g : GoalRow) :
    importance_score g = specImportanceScore g := by
  unfold importance_score specImportanceScore
  dsimp only
  rw [metrics_fold_eq]
  by_cases h : 5 < (incompleteTasks g).length <;> simp [h] <;> try ring

theorem urgency_score_eq (now : Int) (g : GoalRow) :
    urgency_score now g = specUrgencyScore now g := by
  unfold urgency_score specUrgencyScore
  dsimp only
  rw [targets_fold_eq]
  by_cases h14 : 14 < daysSinceUpdate now g
  · simp [h14]; try ring
  · by_cases h7 : 7 < daysSinceUpdate now g <;> simp [h14, h7] <;> try ring

/-- Shared characterization of the fallback goal selection: on a non-empty
list it succeeds, and the chosen goal is the first one attaining the maximal
final score. -/
theorem create_fallback_goal_recommendation_ok (goals : List GoalRow) (now : Int)
    (h1 : goals ≠ []) :
    ∃ top, create_fallback_goal_recommendation goals now = .ok (fallbackGoalRec now top) ∧
      top = scoreGoal now top.goal ∧
      (∀ g ∈ goals, final_score now g ≤ final_score now top.goal) ∧
      ∃ l₁ l₂, goals = l₁ ++ top.goal :: l₂ ∧
        ∀ g ∈ l₁, final_score now g < final_score now top.goal := by
  have hne : goalScores goals now ≠ [] := by
    intro h
    exact h1 (List.map_eq_nil_iff.mp h)
  have hhead := head_insertionSort scoreDesc (goalScores goals now)
  cases hfb : firstBest scoreDesc (goalScores goals now) with
  | none => exact absurd ((firstBest_eq_none scoreDesc _).mp hfb) hne
  | some top =>
    obtain ⟨L₁, L₂, hsplitK, hfirstK, hbestK⟩ :=
      firstBest_spec scoreDesc scoreDesc_total scoreDesc_trans _ top hfb
    obtain ⟨l₁, x, l₂, hsplit, hmap₁, hdx, hmap₂⟩ :=
      map_eq_append_cons (scoreGoal now) goals L₁ L₂ top hsplitK
    have hgx : top.goal = x := by rw [← hdx]; rfl
    have hsc : top.score = final_score now x := by rw [← hdx]; rfl
    refine ⟨top, ?_, ?_, ?_, ?_⟩
    · unfold create_fallback_goal_recommendation
      rw [if_neg (by simpa using h1), hhead, hfb]
    · rw [hgx]; exact hdx.symm
    · intro g hg
      have : scoreGoal now g ∈ goalScores goals now :=
        List.mem_map.mpr ⟨g, hg, rfl⟩
      have hb := hbestK _ this
      unfold scoreDesc at hb
      rw [hgx, ← hsc]
      exact hb
    · refine ⟨l₁, l₂, by rw [hsplit, hgx], ?_⟩
      intro g hg
      have : scoreGoal now g ∈ L₁ := by
        rw [← hmap₁]
        exact List.mem_map.mpr ⟨g, hg, rfl⟩
      have hf := hfirstK _ this
      unfold scoreDesc at hf
      rw [hgx, ← hsc]
      exact not_le.mp hf

/-- C4.  The fallback goal scorer computes exactly the claimed arithmetic:
importance = priority base (8/5/3) + 0.5 per low-progress metric + 0.5 per
high-target metric + 1.0 for more than five incomplete tasks; urgency = 5 +
2 per deadline at most 3 days away + 1 per deadline between 3 and 7 days
away + the inactivity bonus (1.5 beyond 14 days, 0.8 beyond 7); final =
0.6 * importance + 0.4 * urgency; and the selected goal is the one with the
highest final score, ties broken in favor of the earlier goal in the input
list. -/
theorem fallback_goal_scorer_formulas :
    (∀ g : GoalRow, importance_score g = specImportanceScore g) ∧
    (∀ (now : Int) (g : GoalRow), urgency_score now g = specUrgencyScore now g) ∧
    (∀ (now : Int) (g : GoalRow), final_score now g =
      importance_score g * (3/5) + urgency_score now g * (2/5)) ∧
    (∀ (goals : List GoalRow) (now : Int), goals ≠ [] →
      ∃ r, create_fallback_goal_recommendation goals now = .ok r ∧
        r.goal ∈ goals ∧
        (∀ g ∈ goals, final_score now g ≤ final_score now r.goal) ∧
        ∃ l₁ l₂, goals = l₁ ++ r.goal :: l₂ ∧
          ∀ g ∈ l₁, final_score now g < final_score now r.goal) := by
  refine ⟨importance_score_eq, urgency_score_eq, fun now g => rfl, ?_⟩
  intro goals now h1
  obtain ⟨top, hrun, -, hmax, l₁, l₂, hsplit, hfirst⟩ :=
    create_fallback_goal_recommendation_ok goals now h1
  refine ⟨_, hrun, ?_, hmax, l₁, l₂, hsplit, hfirst⟩
  rw [hsplit]
  simp [fallbackGoalRec]

/-- Witness for C4 at a concrete goal and a concrete two-goal list (the
second goal has high priority and wins). -/
theorem fallback_goal_scorer_formulas_witness :
    (importance_score { id := 1, priority := some "high" } =
      specImportanceScore { id := 1, priority := some "high" }) ∧
    (urgency_score 0 { id := 1, priority := some "high" } =
      specUrgencyScore 0 { id := 1, priority := some "high" }) ∧
    (final_score 0 { id := 1, priority := some "high" } =
      importance_score { id := 1, priority := some "high" } * (3/5) +
        urgency_score 0 { id := 1, priority := some "high" } * (2/5)) ∧
    (([({ id := 1, priority := some "low" } : GoalRow), { id := 2, priority := some "high" }] :
        List GoalRow) ≠ []) ∧
    (∃ r, create_fallback_goal_recommendation
        [({ id := 1, priority := some "low" } : GoalRow), { id := 2, priority := some "high" }] 0 =
        .ok r ∧
      r.goal ∈ [({ id := 1, priority := some "low" } : GoalRow), { id := 2, priority := some "high" }] ∧
      (∀ g ∈ [({ id := 1, priority := some "low" } : GoalRow), { id := 2, priority := some "high" }],
        final_score 0 g ≤ final_score 0 r.goal) ∧
      ∃ l₁ l₂, [({ id := 1, priority := some "low" } : GoalRow), { id := 2, priority := some "high" }] =
          l₁ ++ r.goal :: l₂ ∧
        ∀ g ∈ l₁, final_score 0 g < final_score 0 r.goal) :=
  ⟨fallback_goal_scorer_formulas.1 _,
   fallback_goal_scorer_formulas.2.1 0 _,
   fallback_goal_scorer_formulas.2.2.1 0 _,
   by simp,
   fallback_goal_scorer_formulas.2.2.2 _ 0 (by simp)⟩

end AiTodo

namespace AiTodo

/-! ## C8: assembly of the fallback reasoning string and next steps -/

/-- `s` contains `sub` as a substring. -/
def containsStr (s sub : String) : Prop := ∃ p q, s = p ++ sub ++ q

/-- The C8 goal: priority high, unmodified for 20 days (at `now = 0`), no
targets, no metrics, no tasks. -/
def goalInactive : GoalRow :=
  { id := 1, priority := some "high", updated_at := -1728000 }

/-- A goal for which no reasoning clause applies: low priority, just
updated, with one deadline-free target. -/
def goalQuiet : GoalRow :=
  { id := 2, priority := some "low", updated_at := 0,
    targets := [{ id := "t1", title := "T" }] }

set_option maxRecDepth 16384 in
/-- C8.  For the goal unmodified for 20 days with priority high and no
targets, the fallback reasoning is the inactivity, missing-targets and
high-priority clauses in that order, joined with ", " and ", and " before
the last clause; it contains both claimed fragments, and the next steps
include the "Create specific targets for this goal" entry.  For a goal with
no applicable clause the generic sentence is used and the "Create a
strategy" step is emitted. -/
theorem fallback_goal_reasoning_assembly :
    (∃ r, create_fallback_goal_recommendation [goalInactive] 0 = .ok r ∧
      r.reasoning =
        "This goal is recommended because this high priority goal hasn" ++ sq ++
          "t been updated in 20 days, it would benefit from defining specific targets, and it" ++
          sq ++ "s marked as high priority." ∧
      containsStr r.reasoning ("hasn" ++ sq ++ "t been updated") ∧
      containsStr r.reasoning "it would benefit from defining specific targets" ∧
      (⟨"Create specific targets for this goal", "strategy"⟩ : NextStep) ∈ r.next_steps) ∧
    (∃ r, create_fallback_goal_recommendation [goalQuiet] 0 = .ok r ∧
      r.reasoning = "Based on priority, targets, and deadlines." ∧
      r.next_steps = [⟨"Create a strategy for this goal", "strategy"⟩]) := by
  constructor
  · refine ⟨_, rfl, ?_, ?_, ?_, ?_⟩
    · decide
    · refine ⟨"This goal is recommended because this high priority goal ",
        " in 20 days, it would benefit from defining specific targets, and it" ++ sq ++
          "s marked as high priority.", ?_⟩
      decide
    · refine ⟨"This goal is recommended because this high priority goal hasn" ++ sq ++
          "t been updated in 20 days, ",
        ", and it" ++ sq ++ "s marked as high priority.", ?_⟩
      decide
    · decide
  · exact ⟨_, rfl, by decide, by decide⟩

end AiTodo

namespace AiTodo

/-! ## Provider dispatch (`get_task_recommendation`, `get_goal_recommendation`)
and the `ai_recommender` router -/

/-- The two external LLM providers. -/
inductive ProviderCall where
  | sambanova
  | openrouter
deriving DecidableEq, Repr

/-- Truthiness of the two configured API keys (`settings.SAMBANOVA_API_KEY`,
`settings.OPENROUTER_API_KEY`). -/
structure ProviderConfig where
  sambanova_api_key : Bool
  openrouter_api_key : Bool
deriving DecidableEq, Repr

/-- The outcome each provider call would have if attempted: `.ok` a parsed
recommendation, `.error` any raised exception (HTTP failure, parse failure). -/
structure TaskProviderOutcomes where
  sambanova : Except Unit TaskRec
  openrouter : Except Unit TaskRec
deriving Repr

/-- `get_task_recommendation` (lines 24-56): empty input returns `None`;
with provider "sambanova" and its key set, one SambaNova attempt, whose
failure leads to one OpenRouter attempt **not wrapped in try/except** (its
failure propagates) when that key is set, else to the fallback; with
provider "openrouter" and its key set, one OpenRouter attempt whose failure
falls back; otherwise the fallback directly.  The first component records
the provider calls actually made, in order. -/
def get_task_recommendation (tasks : List TaskRow) (provider : String)
    (cfg : ProviderConfig) (out : TaskProviderOutcomes) :
    List ProviderCall × Except PyError (Option TaskRec) :=
  if tasks = [] then ([], .ok none)
  else if provider = "sambanova" ∧ cfg.sambanova_api_key then
    match out.sambanova with
    | .ok r => ([.sambanova], .ok (some r))
    | .error _ =>
      if cfg.openrouter_api_key then
        ([.sambanova, .openrouter],
          match out.openrouter with
          | .ok r => .ok (some r)
          | .error _ => .error .providerError)
      else
        ([.sambanova], (create_fallback_recommendation tasks).map some)
  else if provider = "openrouter" ∧ cfg.openrouter_api_key then
    match out.openrouter with
    | .ok r => ([.openrouter], .ok (some r))
    | .error _ => ([.openrouter], (create_fallback_recommendation tasks).map some)
  else ([], (create_fallback_recommendation tasks).map some)

/-- The outcomes of the goal-side provider calls. -/
structure GoalProviderOutcomes where
  sambanova : Except Unit GoalRecommendation
  openrouter : Except Unit GoalRecommendation
deriving Repr

/-- `get_openrouter_goal_recommendation` (lines 278-598): its entire request
and parsing logic is wrapped in a `try/except` whose handler returns
`create_fallback_goal_recommendation(goals)` — this step never raises (for a
non-empty list). -/
def get_openrouter_goal_recommendation (goals : List GoalRow) (now : Int)
    (res : Except Unit GoalRecommendation) : Except PyError GoalRecommendation :=
  match res with
  | .ok r => .ok r
  | .error _ => create_fallback_goal_recommendation goals now

/-- `get_goal_recommendation` (lines 238-275): same dispatch shape as the
task version, but the OpenRouter step catches its own failures internally. -/
def get_goal_recommendation (goals : List GoalRow) (now : Int) (provider : String)
    (cfg : ProviderConfig) (out : GoalProviderOutcomes) :
    List ProviderCall × Except PyError (Option GoalRecommendation) :=
  if goals = [] then ([], .ok none)
  else if provider = "sambanova" ∧ cfg.sambanova_api_key then
    match out.sambanova with
    | .ok r => ([.sambanova], .ok (some r))
    | .error _ =>
      if cfg.openrouter_api_key then
        ([.sambanova, .openrouter],
          (get_openrouter_goal_recommendation goals now out.openrouter).map some)
      else
        ([.sambanova], (create_fallback_goal_recommendation goals now).map some)
  else if provider = "openrouter" ∧ cfg.openrouter_api_key then
    ([.openrouter], (get_openrouter_goal_recommendation goals now out.openrouter).map some)
  else ([], (create_fallback_goal_recommendation goals now).map some)

/-- `get_top_goal_recommendations` (lines 938-1244).  Empty input returns
`[]`.  With at most `top_n` goals, each goal gets `get_goal_recommendation`
individually, exceptions falling back per goal (elements are the raw return
values, hence `Option`).  With more goals, all are scored and sorted with
the fallback method, the top `top_n` get fallback-style recommendations with
confidence `0.7 + score / 20`, and — when a provider is configured — the
top recommendation alone is replaced by a full `get_goal_recommendation`
(failures, including an empty `top_goals` indexing error, keep the fallback
entry). -/
def get_top_goal_recommendations (goals : List GoalRow) (now : Int) (provider : String)
    (cfg : ProviderConfig) (out : GoalProviderOutcomes) (top_n : Nat) :
    Except PyError (List (Option GoalRecommendation)) :=
  if goals = [] then .ok []
  else if goals.length ≤ top_n then
    goals.mapM (fun g =>
      match (get_goal_recommendation [g] now provider cfg out).2 with
      | .ok r => Except.ok r
      | .error _ => (create_fallback_goal_recommendation [g] now).map some)
  else
    let sorted := (goalScores goals now).insertionSort scoreDesc
    let top_goals := sorted.take top_n
    let recommendations : List (Option GoalRecommendation) := top_goals.map (fun gs =>
      some { goal := gs.goal
             ai_confidence := 7/10 + gs.score / 20
             reasoning := renderReasoning (reasoningParts now gs)
             importance_score := gs.importance_score
             urgency_score := gs.urgency_score
             next_steps := buildNextSteps now gs.goal })
    if provider ≠ "" ∧ provider.toLower ≠ "none" then
      match top_goals.head? with
      | some topGs =>
        match (get_goal_recommendation [topGs.goal] now provider cfg out).2 with
        | .ok detailed => .ok (recommendations.set 0 detailed)
        | .error _ => .ok recommendations
      | none => .ok recommendations
    else .ok recommendations

/-- `POST /api/ai-recommender/recommend-task` (`app/routers/ai_recommender.py`):
reads **all** tasks with no user filter, 404 "No tasks found" when there are
none, 500 when the service returns a falsy value; an uncaught service
exception becomes a 500 at the framework boundary. -/
def recommend_task (db_tasks : List TaskRow) (provider : String)
    (cfg : ProviderConfig) (out : TaskProviderOutcomes) : Except HttpDetail TaskRec :=
  if db_tasks = [] then .error ⟨404, "No tasks found"⟩
  else
    match (get_task_recommendation db_tasks provider cfg out).2 with
    | .error _ => .error ⟨500, "Internal Server Error"⟩
    | .ok none => .error ⟨500, "Failed to get AI recommendation"⟩
    | .ok (some r) => .ok r

/-- `POST /api/ai-recommender/recommend-goal`: reads **all** goals with no
user filter, 404 "No goals found" when there are none, then the top-3
recommendations (500 when that list is falsy). -/
def recommend_goal (db_goals : List GoalRow) (now : Int) (provider : String)
    (cfg : ProviderConfig) (out : GoalProviderOutcomes) :
    Except HttpDetail (List (Option GoalRecommendation)) :=
  if db_goals = [] then .error ⟨404, "No goals found"⟩
  else
    match get_top_goal_recommendations db_goals now provider cfg out 3 with
    | .error _ => .error ⟨500, "Internal Server Error"⟩
    | .ok recs => if recs = [] then .error ⟨500, "Failed to get AI recommendation"⟩ else .ok recs

end AiTodo

namespace AiTodo

/-! ## C6: empty candidate lists -/

/-- C6.  With no candidates, the task route answers 404 "No tasks found" and
the goal route 404 "No goals found" — before any recommendation is
fabricated; the fallback goal scorer raises `ValueError("No goals provided
for recommendation")` and the fallback task scorer raises an error
(`IndexError`) rather than returning a default. -/
theorem empty_candidates_explicit_error :
    (∀ (provider : String) (cfg : ProviderConfig) (out : TaskProviderOutcomes),
      recommend_task [] provider cfg out = .error ⟨404, "No tasks found"⟩) ∧
    (∀ (now : Int) (provider : String) (cfg : ProviderConfig) (gout : GoalProviderOutcomes),
      recommend_goal [] now provider cfg gout = .error ⟨404, "No goals found"⟩) ∧
    (∀ now : Int, create_fallback_goal_recommendation [] now =
      .error (.valueError "No goals provided for recommendation")) ∧
    create_fallback_recommendation [] = .error .indexError :=
  ⟨fun _ _ _ => rfl, fun _ _ _ _ => rfl, fun _ => rfl, rfl⟩

/-! ## C7: the provider chain -/

/-- Counterexample to C7 as stated: provider "sambanova", both keys
configured, one valid candidate; both provider calls fail.  The OpenRouter
attempt made after the SambaNova failure is not wrapped in `try/except`, so
its failure propagates to the caller instead of reaching the deterministic
fallback. -/
theorem provider_double_failure_surfaces :
    get_task_recommendation [taskHighTomorrow] "sambanova" ⟨true, true⟩
      ⟨.error (), .error ()⟩ =
      ([.sambanova, .openrouter], .error .providerError) := rfl

/-- C7 amended.  Each provider is attempted at most once per request, on the
task path and on the goal path.  With provider "openrouter", a failure falls
directly to the deterministic fallback and SambaNova is never attempted.
With provider "sambanova" on the task path, a SambaNova failure leads to one
OpenRouter attempt whose failure propagates to the caller as an error (it
does not reach the fallback).  The goal path never surfaces a provider
failure: its OpenRouter step catches its own failures and falls back
internally. -/
theorem provider_chain_behavior :
    (∀ (tasks : List TaskRow) (provider : String) (cfg : ProviderConfig)
        (out : TaskProviderOutcomes),
      (get_task_recommendation tasks provider cfg out).1.count .sambanova ≤ 1 ∧
      (get_task_recommendation tasks provider cfg out).1.count .openrouter ≤ 1) ∧
    (∀ (goals : List GoalRow) (now : Int) (provider : String) (cfg : ProviderConfig)
        (gout : GoalProviderOutcomes),
      (get_goal_recommendation goals now provider cfg gout).1.count .sambanova ≤ 1 ∧
      (get_goal_recommendation goals now provider cfg gout).1.count .openrouter ≤ 1) ∧
    (∀ (tasks : List TaskRow) (cfg : ProviderConfig) (out : TaskProviderOutcomes),
      tasks ≠ [] → cfg.openrouter_api_key = true → out.openrouter = .error () →
      get_task_recommendation tasks "openrouter" cfg out =
        ([.openrouter], (create_fallback_recommendation tasks).map some)) ∧
    (∀ (tasks : List TaskRow) (cfg : ProviderConfig) (out : TaskProviderOutcomes),
      tasks ≠ [] → cfg.sambanova_api_key = true → cfg.openrouter_api_key = true →
      out.sambanova = .error () → out.openrouter = .error () →
      get_task_recommendation tasks "sambanova" cfg out =
        ([.sambanova, .openrouter], .error .providerError)) ∧
    (∀ (goals : List GoalRow) (now : Int) (provider : String) (cfg : ProviderConfig)
        (gout : GoalProviderOutcomes), goals ≠ [] →
      ∃ r, (get_goal_recommendation goals now provider cfg gout).2 = .ok r) := by
  refine ⟨?_, ?_, ?_, ?_, ?_⟩
  · intro tasks provider cfg out
    unfold get_task_recommendation
    split_ifs <;> cases hs : out.sambanova <;> cases ho : out.openrouter <;>
      constructor <;> simp [hs, ho, List.count_cons, List.count_nil]
  · intro goals now provider cfg gout
    unfold get_goal_recommendation
    split_ifs <;> cases hs : gout.sambanova <;>
      constructor <;> simp [hs, List.count_cons, List.count_nil]
  · intro tasks cfg out hne hkey hout
    unfold get_task_recommendation
    rw [if_neg hne, if_neg (by simp), if_pos ⟨rfl, hkey⟩, hout]
  · intro tasks cfg out hne hskey hokey hsout hoout
    unfold get_task_recommendation
    rw [if_neg hne, if_pos ⟨rfl, hskey⟩, hsout]
    dsimp only
    rw [if_pos hokey, hoout]
  · intro goals now provider cfg gout hne
    obtain ⟨top, hrun, -⟩ := create_fallback_goal_recommendation_ok goals now hne
    have hopen : ∀ res : Except Unit GoalRecommendation,
        ∃ r, (get_openrouter_goal_recommendation goals now res).map some = .ok r := by
      intro res
      cases res with
      | ok r => exact ⟨some r, rfl⟩
      | error e =>
        refine ⟨some (fallbackGoalRec now top), ?_⟩
        have hred : get_openrouter_goal_recommendation goals now (.error e) =
            create_fallback_goal_recommendation goals now := rfl
        rw [hred, hrun]
        rfl
    unfold get_goal_recommendation
    rw [if_neg hne]
    by_cases h2 : provider = "sambanova" ∧ cfg.sambanova_api_key = true
    · rw [if_pos h2]
      cases hgs : gout.sambanova with
      | ok r => exact ⟨some r, rfl⟩
      | error e =>
        dsimp only
        by_cases h3 : cfg.openrouter_api_key = true
        · rw [if_pos h3]
          exact hopen gout.openrouter
        · rw [if_neg h3]
          refine ⟨some (fallbackGoalRec now top), ?_⟩
          rw [hrun]
          rfl
    · rw [if_neg h2]
      by_cases h3 : provider = "openrouter" ∧ cfg.openrouter_api_key = true
      · rw [if_pos h3]
        exact hopen gout.openrouter
      · rw [if_neg h3]
        refine ⟨some (fallbackGoalRec now top), ?_⟩
        rw [hrun]
        rfl

/-- Witness for the amended C7 at concrete inputs. -/
theorem provider_chain_behavior_witness :
    ((get_task_recommendation [taskHighTomorrow] "sambanova" ⟨true, true⟩
        ⟨.error (), .error ()⟩).1.count .sambanova ≤ 1 ∧
      (get_task_recommendation [taskHighTomorrow] "sambanova" ⟨true, true⟩
        ⟨.error (), .error ()⟩).1.count .openrouter ≤ 1) ∧
    (([taskHighTomorrow] : List TaskRow) ≠ [] ∧
      get_task_recommendation [taskHighTomorrow] "openrouter" ⟨false, true⟩
          ⟨.error (), .error ()⟩ =
        ([.openrouter], (create_fallback_recommendation [taskHighTomorrow]).map some)) ∧
    (get_task_recommendation [taskHighTomorrow] "sambanova" ⟨true, true⟩
        ⟨.error (), .error ()⟩ =
      ([.sambanova, .openrouter], .error .providerError)) ∧
    (([goalQuiet] : List GoalRow) ≠ [] ∧
      ∃ r, (get_goal_recommendation [goalQuiet] 0 "sambanova" ⟨true, true⟩
        ⟨.error (), .error ()⟩).2 = .ok r) := by
  refine ⟨provider_chain_behavior.1 _ _ _ _, ⟨by simp, ?_⟩, ?_, by simp, ?_⟩
  · exact provider_chain_behavior.2.2.1 _ _ _ (by simp) rfl rfl
  · exact provider_chain_behavior.2.2.2.1 _ _ _ (by simp) rfl rfl rfl rfl
  · exact provider_chain_behavior.2.2.2.2 _ 0 _ _ _ (by simp)

/-! ## C9: user scoping of reads and writes -/

/-- A task owned by user 7. -/
def foreignTask : TaskRow := { id := 9, user_id := 7, priority := .pstr "high" }

/-- Counterexample to C9 as stated: `get_metrics` takes no authenticated
user at all and returns the metrics of the fixed user 1 to every caller,
and `recommend_task` recommends over the full unscoped task table — here it
returns a task owned by user 7 although no requesting user was consulted,
so a requester other than user 7 receives an entity of another user instead
of a 403. -/
theorem cross_user_data_in_responses :
    (get_metrics [{ id := 5, name := "m5", user_id := 1 }] =
      [{ id := 5, name := "m5", user_id := 1 }]) ∧
    (∃ r, recommend_task [foreignTask] "none" ⟨false, false⟩ ⟨.error (), .error ()⟩ =
      .ok r ∧ r.task.user_id = 7) := by
  exact ⟨rfl, ⟨_, rfl, rfl⟩⟩

/-- C9 amended.  The goals router does scope by owner: updating a goal of a
different user yields 403.  But the metrics router reads the metrics of the
constant user id 1 (it has no authenticated-user dependency), and the
ai-recommender task route draws its recommendation from the full, unscoped
task table. -/
theorem user_scoping_per_router :
    (∀ (goals : List GoalRow) (goal_id : Nat) (u : GoalUpdate) (user_id : Nat) (g : GoalRow),
      goals.find? (fun g0 => g0.id == goal_id) = some g → g.user_id ≠ user_id →
      update_goal goals goal_id u user_id = .error ⟨403, "Not authorized to update this goal"⟩) ∧
    (∀ metrics : List MetricRow, ∀ m ∈ get_metrics metrics, m.user_id = 1) ∧
    (∀ (tasks : List TaskRow) (cfg : ProviderConfig) (out : TaskProviderOutcomes),
      tasks ≠ [] → (∀ t ∈ tasks, goodPriority t.priority) →
      ∃ r, recommend_task tasks "none" cfg out = .ok r ∧ r.task ∈ tasks) := by
  refine ⟨?_, ?_, ?_⟩
  · intro goals goal_id u user_id g hfind hown
    unfold update_goal
    rw [hfind]
    dsimp only
    rw [if_pos hown]
  · intro metrics m hm
    have := (List.mem_filter.mp hm).2
    simpa using this
  · intro tasks cfg out hne hgood
    obtain ⟨rec, hrun, -, -, hmem, -⟩ := create_fallback_recommendation_ok tasks hne hgood
    have hsvc : (get_task_recommendation tasks "none" cfg out).2 = .ok (some rec) := by
      unfold get_task_recommendation
      rw [if_neg hne, if_neg (by simp), if_neg (by simp), hrun]
      rfl
    refine ⟨rec, ?_, hmem⟩
    unfold recommend_task
    rw [if_neg hne, hsvc]

/-- Witness for the amended C9 at concrete inputs. -/
theorem user_scoping_per_router_witness :
    ((([{ id := 1, user_id := 1 }] : List GoalRow).find? (fun g0 => g0.id == 1) =
        some { id := 1, user_id := 1 }) ∧
      update_goal [{ id := 1, user_id := 1 }] 1 {} 2 =
        .error ⟨403, "Not authorized to update this goal"⟩) ∧
    (∀ m ∈ get_metrics [{ id := 5, name := "m5", user_id := 1 }], m.user_id = 1) ∧
    (([foreignTask] : List TaskRow) ≠ [] ∧
      ∃ r, recommend_task [foreignTask] "none" ⟨false, false⟩ ⟨.error (), .error ()⟩ =
        .ok r ∧ r.task ∈ [foreignTask]) := by
  refine ⟨⟨by rfl, ?_⟩, ?_, by simp, ?_⟩
  · exact user_scoping_per_router.1 _ 1 {} 2 { id := 1, user_id := 1 } (by rfl) (by simp)
  · exact user_scoping_per_router.2.1 _
  · exact user_scoping_per_router.2.2 _ ⟨false, false⟩ ⟨.error (), .error ()⟩ (by simp)
      (fun t ht => by simp at ht; subst ht; exact Or.inl rfl)

end AiTodo
